import Mathlib

/-!
Shallow embedding of the wishlist reminder campaign system
(`wishlist_reminder.py` worker and `orchestrator.py` pipeline driver).

Time instants are modelled as integers counting microseconds (Python
datetimes carry microsecond precision).  The relational store is modelled
as explicit lists of rows; SQL row filtering, DISTINCT and LIMIT become
list filtering, dedup and take.  MySQL string comparison is modelled as
exact string equality (binary comparison); Python `str.lower` is modelled
on the ASCII range (`Char.toLower`) and `str.strip` as trimming
whitespace, which agrees with Python on the ASCII e-mail strings at play.
-/

namespace WishlistSpec

/-- Microseconds in one second. -/
def usPerSec : Int := 1000000

/-- Microseconds in one minute. -/
def usPerMin : Int := 60 * usPerSec

/-- Microseconds in one hour. -/
def usPerHour : Int := 60 * usPerMin

/-- Microseconds in one day. -/
def usPerDay : Int := 24 * usPerHour

/-- Truncation of an instant to whole seconds, as performed by
`strftime("%Y-%m-%d %H:%M:%S")` when `select_candidates` turns the window
bounds into SQL parameters (the microsecond part is dropped). -/
def fmtSec (t : Int) : Int := usPerSec * (Int.fdiv t usPerSec)

/-- Python `str.lower()` (ASCII model). -/
def pyLower (s : String) : String := ⟨s.data.map Char.toLower⟩

/-- Surrounding-whitespace removal on a character list. -/
def stripChars (l : List Char) : List Char :=
  ((l.dropWhile Char.isWhitespace).reverse.dropWhile Char.isWhitespace).reverse

/-- Python `str.strip()`: remove surrounding whitespace. -/
def pyStrip (s : String) : String := ⟨stripChars s.data⟩

/-- Split a character list at every occurrence of `sep`
(Python `str.split(sep)` on the offset string). -/
def splitChars (sep : Char) : List Char → List (List Char)
  | [] => [[]]
  | c :: rest =>
    let r := splitChars sep rest
    if c == sep then [] :: r
    else
      match r with
      | h :: t => (c :: h) :: t
      | [] => [[c]]

/-- Decimal digit-string to number (Python `int(...)` on the
digit groups of a well-formed offset string). -/
def decNat (l : List Char) : Nat :=
  l.foldl (fun acc c => acc * 10 + (c.toNat - 48)) 0

/-- Model of `parse_tz_offset_to_delta` from `wishlist_reminder.py`: turns an
offset string such as `"-06:00"` into a signed duration (here in
microseconds).  Malformed strings raise in the source and are outside the
modelled domain (the fallback `0` is never exercised by the theorems). -/
def parse_tz_offset_to_delta (s : String) : Int :=
  let t := stripChars s.data
  let sign : Int := if t.headD ' ' == '-' then -1 else 1
  let body := t.dropWhile (fun c => c == '+' || c == '-')
  match splitChars ':' body with
  | [hh, mm] =>
      sign * ((decNat hh : Int) * usPerHour + (decNat mm : Int) * usPerMin)
  | _ => 0

/-! ## Data model: the relational store -/

/-- A row of `wp_wishlist_guest_emails`: guest e-mail captured for a
wishlist, with its creation timestamp stored in local wall-clock time. -/
structure GuestEmail where
  email : String
  wishlistId : Nat
  createdAtLocal : Int
deriving DecidableEq, Repr

/-- A row of `wp_tinvwl_items`: one product in a wishlist. -/
structure WishItem where
  wishlistId : Nat
  productId : Nat
deriving DecidableEq, Repr

/-- A row of `wp_wishlist_email_log`: the dedup ledger (`sent_at` is not
needed by any claim and is omitted). -/
structure LogRow where
  email : String
  wishlistId : Nat
  campaignKey : String
deriving DecidableEq, Repr

/-- The relational store: guest e-mails, wishlist list IDs
(`wp_tinvwl_lists`), wishlist items and the sent-log. -/
structure DB where
  guestEmails : List GuestEmail
  lists : List Nat
  items : List WishItem
  emailLog : List LogRow
deriving DecidableEq, Repr

/-! ## Window computation -/

/-- Model of `stage_window_bounds_relative`: the relative window
`(now - (T+W)h, now - (T-W)h)`. -/
def stage_window_bounds_relative (nowUtc : Int) (targetHours tolHours : Int) :
    Int × Int :=
  (nowUtc - (targetHours + tolHours) * usPerHour,
   nowUtc - (targetHours - tolHours) * usPerHour)

/-- Model of `day_bounds_utc_for_target_fixed_8am`: full-local-day window.
`days_back = max(1, target_hours // 24)`; the target local calendar day is
`days_back` days before `now`'s local date; the bounds are the local day's
first and last microsecond (`datetime.min.time()` / `datetime.max.time()`)
converted back to UTC by subtracting the offset. -/
def day_bounds_utc_for_target_fixed_8am (nowUtc : Int) (targetHours : Int)
    (tzOffsetStr : String) : Int × Int :=
  let daysBack : Int := max 1 (Int.fdiv targetHours 24)
  let offset := parse_tz_offset_to_delta tzOffsetStr
  let nowLocal := nowUtc + offset
  let targetLocalDay := Int.fdiv nowLocal usPerDay - daysBack
  let startLocal := targetLocalDay * usPerDay
  let endLocal := targetLocalDay * usPerDay + (usPerDay - 1)
  (startLocal - offset, endLocal - offset)

/-! ## Candidate selection and the sent-log -/

/-- The row filter of the `select_candidates` SQL query, for one
`wp_wishlist_guest_emails` row `e`: the inner joins require the wishlist
to exist in `wp_tinvwl_lists` and to have at least one item; the `WHERE`
clause requires `CONVERT_TZ(e.created_at, offset, '+00:00')` — that is,
`created_at - offset` — to lie between the (second-truncated) bounds, and
the anti-join requires no `wp_wishlist_email_log` row with the same raw
e-mail, wishlist and campaign key. -/
def candOk (db : DB) (campaignKey : String) (tzOffsetStr : String)
    (startQ endQ : Int) (e : GuestEmail) : Bool :=
  db.lists.contains e.wishlistId &&
  db.items.any (fun it => it.wishlistId == e.wishlistId) &&
  decide (startQ ≤ e.createdAtLocal - parse_tz_offset_to_delta tzOffsetStr) &&
  decide (e.createdAtLocal - parse_tz_offset_to_delta tzOffsetStr ≤ endQ) &&
  !(db.emailLog.any (fun l =>
      l.email == e.email && l.wishlistId == e.wishlistId &&
      l.campaignKey == campaignKey))

/-- Model of `select_candidates`: `SELECT DISTINCT e.email, wl.ID ... LIMIT %s`.
The bounds are passed through `strftime("%Y-%m-%d %H:%M:%S")`, hence
truncated to whole seconds (`fmtSec`).  The query has no ORDER BY, so the
row order here is one admissible linearization. -/
def select_candidates (db : DB) (campaignKey : String) (tzOffsetStr : String)
    (startUtc endUtc : Int) (maxBatch : Nat) : List (String × Nat) :=
  (((db.guestEmails.filter
      (candOk db campaignKey tzOffsetStr (fmtSec startUtc) (fmtSec endUtc))).map
      (fun e => (e.email, e.wishlistId))).dedup).take maxBatch

/-- Model of `insert_log`: upsert into `wp_wishlist_email_log` of
`(email.lower().strip(), wishlist_id, campaign_key)`.  On conflict only
`sent_at` (not modelled) changes, so the row set is unchanged. -/
def insert_log (db : DB) (email : String) (wishlistId : Nat)
    (campaignKey : String) : DB :=
  let e := pyStrip (pyLower email)
  if db.emailLog.any (fun l =>
      l.email == e && l.wishlistId == wishlistId &&
      l.campaignKey == campaignKey)
  then db
  else { db with emailLog := ⟨e, wishlistId, campaignKey⟩ :: db.emailLog }

/-! ## The worker's per-candidate send loop -/

/-- Environment outcome for one candidate: whether `render_template`
succeeds and whether `send_email` succeeds for it. -/
structure COutcome where
  renderOk : Bool
  sendOk : Bool
deriving DecidableEq, Repr

/-- Result of the worker's send loop: final store, candidates for which a
dispatch was attempted, candidates for which a sent record was written,
and whether the loop was aborted by an uncaught exception. -/
structure StageResult where
  db : DB
  dispatchAttempts : List (String × Nat)
  logged : List (String × Nat)
  aborted : Bool
deriving DecidableEq, Repr

/-- The `for r in rows` loop of the worker's `main`: for each candidate it
normalizes the e-mail (`r["email"].strip().lower()`), calls
`render_template` — which sits OUTSIDE the try block, so a render failure
propagates and aborts the whole loop — and then, only if `SEND_EMAILS` is
on, tries `send_email` followed by `insert_log`, catching (and logging)
any dispatch failure and moving on to the next candidate.  With
`SEND_EMAILS` off it merely prints a preview line. -/
def stage_loop (sendEmails : Bool) (outcome : String × Nat → COutcome)
    (campaignKey : String) : List (String × Nat) → DB → StageResult
  | [], db => ⟨db, [], [], false⟩
  | c :: rest, db =>
    let em := pyLower (pyStrip c.1)
    if (outcome c).renderOk = false then ⟨db, [], [], true⟩
    else if sendEmails then
      if (outcome c).sendOk then
        let r := stage_loop sendEmails outcome campaignKey rest
                   (insert_log db em c.2 campaignKey)
        ⟨r.db, c :: r.dispatchAttempts, c :: r.logged, r.aborted⟩
      else
        let r := stage_loop sendEmails outcome campaignKey rest db
        ⟨r.db, c :: r.dispatchAttempts, r.logged, r.aborted⟩
    else stage_loop sendEmails outcome campaignKey rest db

/-! ## Orchestrator: lock, retry loop, pipeline -/

/-- Model of `acquire_lock`: `os.open(LOCK_FILE, O_CREAT | O_EXCL)` — atomically
creates the marker and returns true, or returns false (no blocking, no
exception) if the marker already exists.  The lock state is whether the
marker file exists. -/
def acquire_lock (lockExists : Bool) : Bool × Bool :=
  if lockExists then (false, lockExists) else (true, true)

/-- Model of `release_lock`: removes the marker (missing marker ignored). -/
def release_lock (_lockExists : Bool) : Bool := false

/-- The backoff delay taken before retry number `k` (1-based):
`BACKOFF_SECS[min(attempt-1, len(BACKOFF_SECS)-1)]`. -/
def backoffDelay (backoff : List Nat) (k : Nat) : Nat :=
  backoff.getD (min (k - 1) (backoff.length - 1)) 0

/-- The per-stage retry loop of `orchestrator.main`, starting at attempt
index `i` with `fuel` retries still allowed.  `rc j` is the exit code of
the `j`-th worker run (0-based).  Returns (total attempts performed,
sleeps taken in order, `none` on success / `some rc` on budget
exhaustion).  In the source, failure number `attempt = i+1` is fatal when
`attempt > MAX_RETRIES`; otherwise it sleeps `backoffDelay (i+1)` and
reruns. -/
def retryFrom (rc : Nat → Int) (backoff : List Nat) :
    Nat → Nat → Nat × List Nat × Option Int
  | i, 0 => if rc i = 0 then (i + 1, [], none) else (i + 1, [], some (rc i))
  | i, fuel + 1 =>
    if rc i = 0 then (i + 1, [], none)
    else
      let r := retryFrom rc backoff (i + 1) fuel
      (r.1, backoffDelay backoff (i + 1) :: r.2.1, r.2.2)

/-- One stage driven to success or retry-budget exhaustion
(`MAX_RETRIES` retries, i.e. at most `maxRetries + 1` attempts). -/
def run_stage_with_retries (rc : Nat → Int) (maxRetries : Nat)
    (backoff : List Nat) : Nat × List Nat × Option Int :=
  retryFrom rc backoff 0 maxRetries

/-- The `for st in stages` loop: runs each stage with retries; on a
stage's budget exhaustion it returns that stage's last exit code at once
(later stages never started).  Returns (stages launched, exit code). -/
def pipeline_stages (maxRetries : Nat) (backoff : List Nat) :
    List (Nat → Int) → Nat × Int
  | [] => (0, 0)
  | s :: rest =>
    match (run_stage_with_retries s maxRetries backoff).2.2 with
    | none =>
      let r := pipeline_stages maxRetries backoff rest
      (r.1 + 1, r.2)
    | some code => (1, code)

/-- Model of `orchestrator.main`: acquire the lock (returning exit status 0 at once
if another instance holds it — the lock is left as-is), else run the stage
loop under try/finally so `release_lock` always runs.  Returns (process
exit status, stages launched, final lock state). -/
def orchestrator_main (lock0 : Bool) (maxRetries : Nat) (backoff : List Nat)
    (stages : List (Nat → Int)) : Int × Nat × Bool :=
  match acquire_lock lock0 with
  | (false, lock1) => (0, 0, lock1)
  | (true, lock1) =>
    let r := pipeline_stages maxRetries backoff stages
    (r.2, r.1, release_lock lock1)

end WishlistSpec

/-! ## Helper lemmas -/

namespace WishlistSpec

/-- Concrete value of one hour in microseconds. -/
lemma usPerHour_eq : usPerHour = 3600000000 := by
  norm_num [usPerHour, usPerMin, usPerSec]

/-- One hour in microseconds is positive. -/
lemma usPerHour_pos : 0 < usPerHour := by rw [usPerHour_eq]; norm_num

/-- A preview-mode loop iteration never touches the store and never
dispatches: structural induction over the candidate list. -/
lemma stage_loop_preview (outcome : String × Nat → COutcome)
    (campaignKey : String) :
    ∀ (rows : List (String × Nat)) (db : DB),
      stage_loop false outcome campaignKey rows db =
        ⟨db, [], [], (stage_loop false outcome campaignKey rows db).aborted⟩
  | [], db => rfl
  | c :: rest, db => by
    by_cases h : (outcome c).renderOk = false
    · simp [stage_loop, h]
    · have ih := stage_loop_preview outcome campaignKey rest db
      simp [stage_loop, h]
      rw [ih]

end WishlistSpec

namespace WishlistSpec

/-- C4.  Relative-mode window arithmetic: the window returned by
`stage_window_bounds_relative` for current instant `now`, target `T`
hours and tolerance `W` hours is exactly
`(now - (T+W)h, now - (T-W)h)`; its width is always `2W` hours; advancing
`now` by any `d` shifts both bounds by exactly `d`; and if `T < W` the
returned end bound strictly exceeds `now` (no clamping). -/
theorem relative_window_arithmetic (now T W d : Int) :
    stage_window_bounds_relative now T W =
      (now - (T + W) * usPerHour, now - (T - W) * usPerHour) ∧
    (stage_window_bounds_relative now T W).2 -
      (stage_window_bounds_relative now T W).1 = 2 * W * usPerHour ∧
    stage_window_bounds_relative (now + d) T W =
      ((stage_window_bounds_relative now T W).1 + d,
       (stage_window_bounds_relative now T W).2 + d) ∧
    (T < W → now < (stage_window_bounds_relative now T W).2) := by
  refine ⟨rfl, ?_, ?_, ?_⟩
  · simp only [stage_window_bounds_relative]
    ring
  · simp only [stage_window_bounds_relative, Prod.mk.injEq]
    constructor <;> ring
  · intro h
    simp only [stage_window_bounds_relative]
    have hneg : (T - W) * usPerHour < 0 :=
      mul_neg_of_neg_of_pos (by omega) usPerHour_pos
    omega

/-- Witness for C4 at `now = 0`, `T = 0`, `W = 6`, `d = 5`: the inner
hypothesis `T < W` is discharged concretely. -/
theorem relative_window_arithmetic_witness :
    stage_window_bounds_relative 0 0 6 =
      (0 - (0 + 6) * usPerHour, 0 - (0 - 6) * usPerHour) ∧
    (0 : Int) < (stage_window_bounds_relative 0 0 6).2 := by
  obtain ⟨h1, _, _, h4⟩ := relative_window_arithmetic 0 0 6 5
  exact ⟨h1, h4 (by norm_num)⟩

/-- C8.  SingletonGuard semantics: with the marker absent, `acquire_lock`
succeeds and creates the marker; while the marker exists a second
`acquire_lock` returns false (the model is a total function: no blocking,
no exception) and leaves the marker; after `release_lock` removes the
marker, `acquire_lock` succeeds again; and an orchestrator run that finds
the lock taken exits with status 0 (clean success) having launched no
stage. -/
theorem singleton_guard_semantics :
    acquire_lock false = (true, true) ∧
    acquire_lock true = (false, true) ∧
    (∀ l : Bool, release_lock l = false) ∧
    acquire_lock (release_lock true) = (true, true) ∧
    (∀ (maxRetries : Nat) (backoff : List Nat) (stages : List (Nat → Int)),
      orchestrator_main true maxRetries backoff stages = (0, 0, true)) :=
  ⟨rfl, rfl, fun _ => rfl, rfl, fun _ _ _ => rfl⟩

/-- C9.  Preview mode is write-free: with the live-send toggle off
(`SEND_EMAILS = false`), the worker loop dispatches no message, writes no
sent record, and leaves the whole store — in particular its sent-log —
unchanged, for every candidate list, outcome environment and store. -/
theorem preview_mode_write_free (outcome : String × Nat → COutcome)
    (campaignKey : String) (rows : List (String × Nat)) (db : DB) :
    (stage_loop false outcome campaignKey rows db).db = db ∧
    (stage_loop false outcome campaignKey rows db).dispatchAttempts = [] ∧
    (stage_loop false outcome campaignKey rows db).logged = [] ∧
    (stage_loop false outcome campaignKey rows db).db.emailLog = db.emailLog := by
  have h := stage_loop_preview outcome campaignKey rows db
  rw [h]
  exact ⟨rfl, rfl, rfl, rfl⟩

end WishlistSpec

namespace WishlistSpec

/-- C5.  Fixed-local-day window: the two bounds depend on `now` only
through its local calendar day, so they are identical for any two instants
on the same local day; the start bound is the UTC instant whose local
equivalent is midnight (00:00:00.000000) of the local date `days_back`
days earlier with `days_back = max(1, T // 24)`; the end bound is the last
microsecond (23:59:59.999999) of that same local day; and `days_back` is
1, 2, 3 for `T` = 24, 48, 72. -/
theorem fixed_local_day_window (now1 now2 T : Int) (s : String)
    (hday : Int.fdiv (now1 + parse_tz_offset_to_delta s) usPerDay =
            Int.fdiv (now2 + parse_tz_offset_to_delta s) usPerDay) :
    day_bounds_utc_for_target_fixed_8am now1 T s =
      day_bounds_utc_for_target_fixed_8am now2 T s ∧
    (day_bounds_utc_for_target_fixed_8am now1 T s).1 +
        parse_tz_offset_to_delta s =
      (Int.fdiv (now1 + parse_tz_offset_to_delta s) usPerDay -
        max 1 (Int.fdiv T 24)) * usPerDay ∧
    (day_bounds_utc_for_target_fixed_8am now1 T s).2 =
      (day_bounds_utc_for_target_fixed_8am now1 T s).1 + (usPerDay - 1) ∧
    max 1 (Int.fdiv 24 24) = 1 ∧ max 1 (Int.fdiv 48 24) = 2 ∧
    max 1 (Int.fdiv 72 24) = 3 := by
  refine ⟨?_, ?_, ?_, by decide, by decide, by decide⟩
  · simp only [day_bounds_utc_for_target_fixed_8am, hday]
  · simp only [day_bounds_utc_for_target_fixed_8am]
    ring
  · simp only [day_bounds_utc_for_target_fixed_8am]
    ring

/-- Witness for C5: `now` = 09:00 UTC and 10:00 UTC of epoch day 0 lie on
the same local day for offset `-06:00`; with `T = 24` the window is local
day `-1`, i.e. UTC `[-1 day + 06:00, 05:59:59.999999]` — the scenario of
the specification. -/
theorem fixed_local_day_window_witness :
    day_bounds_utc_for_target_fixed_8am (9 * usPerHour) 24 "-06:00" =
      day_bounds_utc_for_target_fixed_8am (10 * usPerHour) 24 "-06:00" ∧
    day_bounds_utc_for_target_fixed_8am (9 * usPerHour) 24 "-06:00" =
      (6 * usPerHour - usPerDay, 6 * usPerHour - 1) := by
  have h := fixed_local_day_window (9 * usPerHour) (10 * usPerHour) 24
    "-06:00" (by decide)
  exact ⟨h.1, by decide⟩

/-- Retry loop under a never-succeeding unit of work: starting at attempt
`i` with `fuel` retries left, it performs the remaining `fuel + 1`
attempts, sleeps the configured backoff before each retry, and ends fatal
with the last exit code. -/
lemma retryFrom_allfail (rc : Nat → Int) (backoff : List Nat)
    (h : ∀ j, rc j ≠ 0) :
    ∀ (fuel i : Nat), retryFrom rc backoff i fuel =
      (i + fuel + 1,
       (List.range fuel).map (fun j => backoffDelay backoff (i + j + 1)),
       some (rc (i + fuel)))
  | 0, i => by simp [retryFrom, h i]
  | fuel + 1, i => by
    have ih := retryFrom_allfail rc backoff h fuel (i + 1)
    simp only [retryFrom, if_neg (h i), ih]
    refine Prod.ext (by omega) (Prod.ext ?_ ?_)
    · show backoffDelay backoff (i + 1) ::
        (List.range fuel).map (fun j => backoffDelay backoff (i + 1 + j + 1)) =
        (List.range (fuel + 1)).map (fun j => backoffDelay backoff (i + j + 1))
      rw [List.range_succ_eq_map, List.map_cons, List.map_map]
      refine congrArg₂ _ (by norm_num) (List.map_congr_left ?_)
      intro j _
      simp only [Function.comp_apply]
      congr 1
      omega
    · show (some (rc (i + 1 + fuel)) : Option Int) = some (rc (i + (fuel + 1)))
      have harg : i + 1 + fuel = i + (fuel + 1) := by omega
      rw [harg]

/-- C6.  Retry-with-backoff schedule: with max retries 2 and backoff
[10, 30], a unit of work failing twice then succeeding is attempted
exactly 3 times with sleeps of 10 then 30 seconds; a never-succeeding unit
of work is attempted exactly `maxRetries + 1` times then reported fatal
with the last exit code, sleeping `backoffDelay` before each retry; and
the delay before retry `k` is the backoff entry at index
`min (k-1) (length-1)` (the last entry repeats). -/
theorem retry_backoff_schedule (maxRetries : Nat) (backoff : List Nat)
    (rc : Nat → Int) (hfail : ∀ j, rc j ≠ 0) :
    run_stage_with_retries (fun i => if i < 2 then 1 else 0) 2 [10, 30] =
      (3, [10, 30], none) ∧
    run_stage_with_retries rc maxRetries backoff =
      (maxRetries + 1,
       (List.range maxRetries).map (fun j => backoffDelay backoff (j + 1)),
       some (rc maxRetries)) ∧
    (∀ k, backoffDelay backoff k =
      backoff.getD (min (k - 1) (backoff.length - 1)) 0) := by
  refine ⟨by decide, ?_, fun k => rfl⟩
  have h := retryFrom_allfail rc backoff hfail maxRetries 0
  simpa [run_stage_with_retries, Nat.zero_add] using h

/-- Witness for C6: a unit of work always exiting 7, with max retries 2
and backoff [10, 30], gives 3 attempts, sleeps 10 then 30, fatal 7. -/
theorem retry_backoff_schedule_witness :
    run_stage_with_retries (fun _ => (7 : Int)) 2 [10, 30] =
      (3, [10, 30], some 7) := by
  have h := (retry_backoff_schedule 2 [10, 30] (fun _ => 7)
    (fun _ => by norm_num)).2.1
  rw [h]
  decide

end WishlistSpec

namespace WishlistSpec

/-- Stage loop over stages that all succeed within budget: every stage is
launched and the exit code is 0. -/
lemma pipeline_stages_all_ok (maxRetries : Nat) (backoff : List Nat) :
    ∀ stages : List (Nat → Int),
      (∀ s ∈ stages,
        (run_stage_with_retries s maxRetries backoff).2.2 = none) →
      pipeline_stages maxRetries backoff stages = (stages.length, 0)
  | [], _ => rfl
  | s :: rest, h => by
    have hs := h s (List.mem_cons_self s rest)
    have ih := pipeline_stages_all_ok maxRetries backoff rest
      (fun t ht => h t (List.mem_cons_of_mem s ht))
    simp [pipeline_stages, hs, ih]

/-- Stage loop hitting a fatal stage after a prefix of successful stages:
exactly the prefix plus the fatal stage are launched and the fatal exit
code is returned. -/
lemma pipeline_stages_fatal (maxRetries : Nat) (backoff : List Nat)
    (f : Nat → Int) (r : Int) (post : List (Nat → Int))
    (hf : (run_stage_with_retries f maxRetries backoff).2.2 = some r) :
    ∀ pre : List (Nat → Int),
      (∀ s ∈ pre,
        (run_stage_with_retries s maxRetries backoff).2.2 = none) →
      pipeline_stages maxRetries backoff (pre ++ f :: post) =
        (pre.length + 1, r)
  | [], _ => by simp [pipeline_stages, hf]
  | s :: pre, h => by
    have hs := h s (List.mem_cons_self s pre)
    have ih := pipeline_stages_fatal maxRetries backoff f r post hf pre
      (fun t ht => h t (List.mem_cons_of_mem s ht))
    simp [pipeline_stages, hs, ih]

/-- C7.  Pipeline exit status: when the lock is free and every stage
succeeds within its retry budget the orchestrator exits 0 (after
launching all stages and releasing the lock); when the lock is already
held it exits 0 having launched nothing; and when the stage at position
`pre.length` exhausts its budget with final worker exit code `r`, only
the `pre.length + 1` stages up to and including it are launched — none of
the stages after it — and the process exit status is exactly `r`. -/
theorem pipeline_exit_status (maxRetries : Nat) (backoff : List Nat)
    (stages pre post : List (Nat → Int)) (f : Nat → Int) (r : Int)
    (hok : ∀ s ∈ stages,
      (run_stage_with_retries s maxRetries backoff).2.2 = none)
    (hpre : ∀ s ∈ pre,
      (run_stage_with_retries s maxRetries backoff).2.2 = none)
    (hf : (run_stage_with_retries f maxRetries backoff).2.2 = some r) :
    orchestrator_main false maxRetries backoff stages =
      (0, stages.length, false) ∧
    (orchestrator_main true maxRetries backoff stages).1 = 0 ∧
    orchestrator_main false maxRetries backoff (pre ++ f :: post) =
      (r, pre.length + 1, false) := by
  refine ⟨?_, rfl, ?_⟩
  · simp [orchestrator_main, acquire_lock, release_lock,
      pipeline_stages_all_ok maxRetries backoff stages hok]
  · simp [orchestrator_main, acquire_lock, release_lock,
      pipeline_stages_fatal maxRetries backoff f r post hf pre hpre]

/-- Witness for C7: one always-succeeding stage gives exit 0; an
always-failing stage with exit code 5 placed first makes the pipeline
exit 5 after launching only that stage (the succeeding stage after it is
never launched). -/
theorem pipeline_exit_status_witness :
    orchestrator_main false 0 [] [fun _ => (0 : Int)] = (0, 1, false) ∧
    orchestrator_main false 0 []
      ([] ++ (fun _ => (5 : Int)) :: [fun _ => (0 : Int)]) = (5, 1, false) := by
  have h := pipeline_exit_status 0 [] [fun _ => (0 : Int)] []
    [fun _ => (0 : Int)] (fun _ => (5 : Int)) 5
    (by intro s hs
        rw [List.mem_singleton] at hs
        subst hs
        decide)
    (by intro s hs
        simp at hs)
    (by decide)
  exact ⟨h.1, h.2.2⟩

end WishlistSpec

namespace WishlistSpec

/-- Only the sent-log changes under `insert_log`; the guest, list and item
tables are untouched. -/
lemma insert_log_frame (db : DB) (em : String) (w : Nat) (ck : String) :
    (insert_log db em w ck).guestEmails = db.guestEmails ∧
    (insert_log db em w ck).lists = db.lists ∧
    (insert_log db em w ck).items = db.items := by
  unfold insert_log
  dsimp only
  split <;> exact ⟨rfl, rfl, rfl⟩

/-- After `insert_log db em w ck` the log holds a row whose e-mail is the
normalized form of `em` (either the freshly inserted row or the row the
upsert collided with). -/
lemma insert_log_writes (db : DB) (em : String) (w : Nat) (ck : String) :
    ∃ l ∈ (insert_log db em w ck).emailLog,
      l.email = pyStrip (pyLower em) ∧ l.wishlistId = w ∧
      l.campaignKey = ck := by
  unfold insert_log
  dsimp only
  split
  · rename_i h
    rw [List.any_eq_true] at h
    obtain ⟨l, hl, hmatch⟩ := h
    simp only [Bool.and_eq_true, beq_iff_eq] at hmatch
    exact ⟨l, hl, hmatch.1.1, hmatch.1.2, hmatch.2⟩
  · exact ⟨⟨pyStrip (pyLower em), w, ck⟩, List.mem_cons_self _ _,
      rfl, rfl, rfl⟩

/-- Core dedup property of the selection query: a pair for which a
matching sent-log row exists (same raw e-mail, wishlist and campaign key)
is never returned by `select_candidates`, whatever the window and batch
cap. -/
lemma select_excludes_logged (db : DB) (r : String) (s : Nat)
    (ck tz : String) (a b : Int) (mb : Nat)
    (hlog : ∃ l ∈ db.emailLog,
      l.email = r ∧ l.wishlistId = s ∧ l.campaignKey = ck) :
    (r, s) ∉ select_candidates db ck tz a b mb := by
  intro hmem
  unfold select_candidates at hmem
  have h1 : (r, s) ∈ ((db.guestEmails.filter
      (candOk db ck tz (fmtSec a) (fmtSec b))).map
      (fun e => (e.email, e.wishlistId))).dedup :=
    (List.take_sublist _ _).subset hmem
  rw [List.mem_dedup, List.mem_map] at h1
  obtain ⟨e, he, heq⟩ := h1
  rw [List.mem_filter] at he
  obtain ⟨-, hok⟩ := he
  rw [Prod.mk.injEq] at heq
  obtain ⟨l, hl, hl1, hl2, hl3⟩ := hlog
  unfold candOk at hok
  simp only [Bool.and_eq_true, Bool.not_eq_true'] at hok
  have hany := hok.2
  rw [List.any_eq_false] at hany
  have hfalse := hany l hl
  simp only [Bool.and_eq_true, beq_iff_eq, heq.1, heq.2] at hfalse
  exact hfalse ⟨⟨hl1, hl2⟩, hl3⟩

/-- Timestamp placing the example guest e-mail one hour past UTC epoch
once converted from the `-06:00` local store format. -/
def exTs : Int := parse_tz_offset_to_delta "-06:00" + usPerHour

/-- Example store: one guest e-mail `"A@b.com"` (note the capital letter)
on wishlist 5, which exists and holds one item; empty sent-log. -/
def exDB : DB := ⟨[⟨"A@b.com", 5, exTs⟩], [5], [⟨5, 100⟩], []⟩

/-- One full live-send run over `exDB`: select the candidates for the
window `[0, usPerDay]`, render, dispatch and log each of them with every
render and dispatch succeeding. -/
def exRun : StageResult :=
  stage_loop true (fun _ => ⟨true, true⟩) "wishlist_v1_24h"
    (select_candidates exDB "wishlist_v1_24h" "-06:00" 0 usPerDay 300) exDB

end WishlistSpec

namespace WishlistSpec

/-- C1 counterexample.  The claim fails on the code: the stored guest
e-mail `"A@b.com"` is selected for the window `[0, 1 day]`; the live run
succeeds for it and `insert_log` writes the sent record — but normalized
to `"a@b.com"` — and a subsequent invocation of `select_candidates` with
the very same campaign key and window returns the pair `("A@b.com", 5)`
again, because the dedup join compares the logged (normalized) e-mail
against the raw stored one. -/
theorem exactly_once_counterexample :
    select_candidates exDB "wishlist_v1_24h" "-06:00" 0 usPerDay 300 =
      [("A@b.com", 5)] ∧
    exRun.logged = [("A@b.com", 5)] ∧
    exRun.db.emailLog = [⟨"a@b.com", 5, "wishlist_v1_24h"⟩] ∧
    select_candidates exRun.db "wishlist_v1_24h" "-06:00" 0 usPerDay 300 =
      [("A@b.com", 5)] := by
  refine ⟨by decide, by decide, by decide, by decide⟩

/-- C1 amended.  Exactly-once per campaign identity holds for the
e-mail as `insert_log` records it: once `insert_log` has run for an
e-mail argument `em` whose normalized form (`lower` then `strip`) is
`r`, the pair `(r, s)` is never again returned by `select_candidates`
for the same campaign key, for every window `[a, b]` and batch cap — in
particular, for a stored guest e-mail that equals its own normalized
form, the original claim holds verbatim. -/
theorem exactly_once_amended (db : DB) (em r : String) (s : Nat)
    (ck tz : String) (a b : Int) (mb : Nat)
    (hnorm : pyStrip (pyLower em) = r) :
    (r, s) ∉ select_candidates (insert_log db em s ck) ck tz a b mb := by
  apply select_excludes_logged
  have h := insert_log_writes db em s ck
  rw [hnorm] at h
  exact h

/-- Witness for C1 amended: the normalized pair `("a@b.com", 5)` is
excluded after its record is written, even though the window still
contains its event time. -/
theorem exactly_once_amended_witness :
    ("a@b.com", 5) ∉ select_candidates
      (insert_log exDB "A@b.com" 5 "wishlist_v1_24h")
      "wishlist_v1_24h" "-06:00" 0 usPerDay 300 :=
  exactly_once_amended exDB "A@b.com" "a@b.com" 5 "wishlist_v1_24h"
    "-06:00" 0 usPerDay 300 (by decide)

end WishlistSpec

namespace WishlistSpec

/-- C2 counterexample.  The claim fails on the code: `render_template` is
called outside the try block of the send loop, so a rendering failure for
the first candidate aborts the whole stage run — the second candidate
(whose render and dispatch would both succeed) is never processed, no
dispatch is attempted at all, and the loop ends in the aborted state. -/
theorem failure_tolerance_counterexample :
    stage_loop true
      (fun c => if c.1 == "a@b.com" then ⟨false, true⟩ else ⟨true, true⟩)
      "wishlist_v1_24h" [("a@b.com", 1), ("c@d.com", 2)] ⟨[], [], [], []⟩ =
      ⟨⟨[], [], [], []⟩, [], [], true⟩ := by
  decide

/-- C2 amended.  Per-recipient dispatch-failure tolerance: provided
rendering succeeds for every candidate of the list, a dispatch failure
for one candidate is caught, that candidate gets no sent record, and
processing continues through the whole list (no abort); the candidates
logged are exactly those whose dispatch succeeded.  (A rendering failure,
by contrast, aborts the stage run — see the counterexample.) -/
theorem dispatch_failure_tolerated (outcome : String × Nat → COutcome)
    (ck : String) :
    ∀ (rows : List (String × Nat)) (db : DB),
      (∀ c ∈ rows, (outcome c).renderOk = true) →
      (stage_loop true outcome ck rows db).aborted = false ∧
      (stage_loop true outcome ck rows db).dispatchAttempts = rows ∧
      (stage_loop true outcome ck rows db).logged =
        rows.filter (fun c => (outcome c).sendOk)
  | [], _, _ => ⟨rfl, rfl, rfl⟩
  | c :: rest, db, h => by
    have hc := h c (List.mem_cons_self c rest)
    have hrest : ∀ t ∈ rest, (outcome t).renderOk = true :=
      fun t ht => h t (List.mem_cons_of_mem c ht)
    by_cases hs : (outcome c).sendOk = true
    · have ih := dispatch_failure_tolerated outcome ck rest
        (insert_log db (pyLower (pyStrip c.1)) c.2 ck) hrest
      simp [stage_loop, hc, hs, ih.1, ih.2.1, ih.2.2, List.filter_cons]
    · have ih := dispatch_failure_tolerated outcome ck rest db hrest
      rw [Bool.not_eq_true] at hs
      simp [stage_loop, hc, hs, ih.1, ih.2.1, ih.2.2, List.filter_cons]

/-- Witness for C2 amended: two candidates, both rendering fine, the
second failing dispatch — the run completes unaborted, both dispatches
are attempted, and only the first candidate is logged. -/
theorem dispatch_failure_tolerated_witness :
    (stage_loop true (fun c => ⟨true, c.2 == 1⟩) "wishlist_v1_24h"
      [("a@b.com", 1), ("c@d.com", 2)] ⟨[], [], [], []⟩).aborted = false ∧
    (stage_loop true (fun c => ⟨true, c.2 == 1⟩) "wishlist_v1_24h"
      [("a@b.com", 1), ("c@d.com", 2)] ⟨[], [], [], []⟩).dispatchAttempts =
      [("a@b.com", 1), ("c@d.com", 2)] ∧
    (stage_loop true (fun c => ⟨true, c.2 == 1⟩) "wishlist_v1_24h"
      [("a@b.com", 1), ("c@d.com", 2)] ⟨[], [], [], []⟩).logged =
      [("a@b.com", 1)] := by
  have h := dispatch_failure_tolerated (fun c => ⟨true, c.2 == 1⟩)
    "wishlist_v1_24h" [("a@b.com", 1), ("c@d.com", 2)] ⟨[], [], [], []⟩
    (by decide)
  refine ⟨h.1, h.2.1, ?_⟩
  rw [h.2.2]
  decide

end WishlistSpec

namespace WishlistSpec

/-- Example store for the window-boundary counterexample: one guest
e-mail whose event instant converts to exactly UTC 0. -/
def db3 : DB :=
  ⟨[⟨"a@b.com", 5, parse_tz_offset_to_delta "-06:00"⟩], [5], [⟨5, 100⟩], []⟩

/-- C3 counterexample.  The claim fails on the code: with
`start = 500000` microseconds (0.5 s past epoch), the query parameters
are truncated to whole seconds by `strftime("%Y-%m-%d %H:%M:%S")`, so a
guest whose converted event timestamp is UTC 0 is returned even though
0 lies strictly before `start` — the returned pair's event time is NOT in
the closed interval `[start, end]`. -/
theorem select_window_counterexample :
    select_candidates db3 "wishlist_v1_24h" "-06:00" 500000 usPerDay 300 =
      [("a@b.com", 5)] ∧
    db3.guestEmails.map
      (fun e => e.createdAtLocal - parse_tz_offset_to_delta "-06:00") = [0] ∧
    ¬((500000 : Int) ≤ 0) := by
  refine ⟨by decide, by decide, by decide⟩

/-- C3 amended.  CandidateSelector postcondition: `select_candidates`
returns at most `maxBatch` pairwise-distinct pairs, and every returned
pair comes from a stored guest row whose event timestamp, converted from
the fixed local offset to UTC, lies in the closed interval between the
WHOLE-SECOND TRUNCATIONS of `start` and `end` (which is `[start, end]`
itself whenever the bounds are whole seconds); the wishlist has at least
one associated item; and no sent record exists for that raw
(e-mail, wishlist, campaign key) triple. -/
theorem select_candidates_postcondition (db : DB) (ck tz : String)
    (a b : Int) (mb : Nat) :
    (select_candidates db ck tz a b mb).length ≤ mb ∧
    (select_candidates db ck tz a b mb).Nodup ∧
    ∀ p ∈ select_candidates db ck tz a b mb,
      ∃ e ∈ db.guestEmails,
        e.email = p.1 ∧ e.wishlistId = p.2 ∧
        fmtSec a ≤ e.createdAtLocal - parse_tz_offset_to_delta tz ∧
        e.createdAtLocal - parse_tz_offset_to_delta tz ≤ fmtSec b ∧
        (∃ it ∈ db.items, it.wishlistId = p.2) ∧
        ∀ l ∈ db.emailLog,
          ¬(l.email = p.1 ∧ l.wishlistId = p.2 ∧ l.campaignKey = ck) := by
  refine ⟨List.length_take_le mb _, ?_, ?_⟩
  · exact List.Nodup.sublist (List.take_sublist _ _) (List.nodup_dedup _)
  · intro p hp
    have h1 : p ∈ ((db.guestEmails.filter
        (candOk db ck tz (fmtSec a) (fmtSec b))).map
        (fun e => (e.email, e.wishlistId))).dedup :=
      (List.take_sublist _ _).subset hp
    rw [List.mem_dedup, List.mem_map] at h1
    obtain ⟨e, he, rfl⟩ := h1
    rw [List.mem_filter] at he
    obtain ⟨hmem, hok⟩ := he
    unfold candOk at hok
    simp only [Bool.and_eq_true, Bool.not_eq_true', decide_eq_true_eq,
      List.any_eq_true, beq_iff_eq] at hok
    obtain ⟨⟨⟨⟨-, hitem⟩, hstart⟩, hend⟩, hlog⟩ := hok
    rw [List.any_eq_false] at hlog
    refine ⟨e, hmem, rfl, rfl, hstart, hend, hitem, ?_⟩
    intro l hl hcontr
    have hfalse := hlog l hl
    simp only [Bool.and_eq_true, beq_iff_eq] at hfalse
    exact hfalse ⟨⟨hcontr.1, hcontr.2.1⟩, hcontr.2.2⟩

/-- Witness for C3 amended, instantiated on `db3` with the window
`[0, usPerDay]` and the returned pair `("a@b.com", 5)`. -/
theorem select_candidates_postcondition_witness :
    ∃ e ∈ db3.guestEmails,
      e.email = "a@b.com" ∧ e.wishlistId = 5 ∧
      fmtSec 0 ≤ e.createdAtLocal - parse_tz_offset_to_delta "-06:00" ∧
      e.createdAtLocal - parse_tz_offset_to_delta "-06:00" ≤ fmtSec usPerDay ∧
      (∃ it ∈ db3.items, it.wishlistId = 5) ∧
      ∀ l ∈ db3.emailLog,
        ¬(l.email = "a@b.com" ∧ l.wishlistId = 5 ∧
          l.campaignKey = "wishlist_v1_24h") := by
  have h := (select_candidates_postcondition db3 "wishlist_v1_24h" "-06:00"
    0 usPerDay 300).2.2 ("a@b.com", 5) (by decide)
  exact h

end WishlistSpec

namespace WishlistSpec

/-- Minimal store with one guest e-mail `r` on wishlist `s` (which exists
and holds one item) and an empty sent-log. -/
def singletonDB (r : String) (s : Nat) (ts : Int) (pid : Nat) : DB :=
  ⟨[⟨r, s, ts⟩], [s], [⟨s, pid⟩], []⟩

/-- Value of `insert_log` on the minimal store: the upsert finds no
conflicting row and prepends the normalized record. -/
lemma insert_log_singletonDB (r : String) (s : Nat) (ts : Int) (pid : Nat)
    (ck : String) :
    insert_log (singletonDB r s ts pid) r s ck =
      ⟨[⟨r, s, ts⟩], [s], [⟨s, pid⟩], [⟨pyStrip (pyLower r), s, ck⟩]⟩ := by
  simp [insert_log, singletonDB]

/-- C10.  Sent-record e-mail normalization: `insert_log` always writes
its record with the e-mail argument lowercased and stripped (the log
either gains exactly that normalized row or is unchanged by the upsert),
while the dedup join of `select_candidates` compares the logged e-mail
against the raw stored guest e-mail; consequently, on a store whose only
log row is the one `insert_log` wrote for the stored pair `(r, s)`, the
pair is permanently excluded from selection (for any window containing
its event time and any positive batch cap) if and only if the stored
e-mail `r` equals its lowercased, stripped form. -/
theorem sent_record_email_normalization :
    (∀ (db : DB) (em : String) (w : Nat) (ck : String),
      (insert_log db em w ck).emailLog = db.emailLog ∨
      (insert_log db em w ck).emailLog =
        ⟨pyStrip (pyLower em), w, ck⟩ :: db.emailLog) ∧
    (∀ (r : String) (s : Nat) (ts : Int) (pid : Nat) (ck tz : String)
        (a b : Int) (mb : Nat),
      fmtSec a ≤ ts - parse_tz_offset_to_delta tz →
      ts - parse_tz_offset_to_delta tz ≤ fmtSec b →
      1 ≤ mb →
      (((r, s) ∉ select_candidates
          (insert_log (singletonDB r s ts pid) r s ck) ck tz a b mb) ↔
        pyStrip (pyLower r) = r)) := by
  constructor
  · intro db em w ck
    unfold insert_log
    dsimp only
    split
    · exact Or.inl rfl
    · exact Or.inr rfl
  · intro r s ts pid ck tz a b mb ha hb hmb
    constructor
    · intro hexcl
      by_contra hne
      apply hexcl
      rw [insert_log_singletonDB]
      unfold select_candidates
      have hcand : candOk ⟨[⟨r, s, ts⟩], [s], [⟨s, pid⟩],
          [⟨pyStrip (pyLower r), s, ck⟩]⟩ ck tz (fmtSec a) (fmtSec b)
          ⟨r, s, ts⟩ = true := by
        unfold candOk
        simp only [List.contains_cons, List.any_cons, List.any_nil,
          List.elem_nil, Bool.or_false, beq_self_eq_true, Bool.true_and,
          Bool.and_true, Bool.not_eq_true', Bool.and_eq_true,
          decide_eq_true_eq, Bool.and_eq_false_iff, Bool.or_eq_true]
        exact ⟨⟨ha, hb⟩, beq_eq_false_iff_ne.mpr hne⟩
      rw [List.filter_cons, if_pos hcand, List.filter_nil]
      simp only [List.map_cons, List.map_nil, List.dedup_cons_of_not_mem
        (List.not_mem_nil _), List.dedup_nil]
      obtain ⟨k, rfl⟩ : ∃ k, mb = k + 1 :=
        ⟨mb - 1, by omega⟩
      rw [List.take_succ_cons]
      exact List.mem_cons_self _ _
    · intro hnorm
      apply select_excludes_logged
      have h := insert_log_writes (singletonDB r s ts pid) r s ck
      rw [hnorm] at h
      exact h

/-- Witness for C10 at `r = "A@b.com"`: since the normalized form
`"a@b.com"` differs from the stored e-mail, the instantiated equivalence
says the pair is NOT permanently excluded. -/
theorem sent_record_email_normalization_witness :
    (("A@b.com", 5) ∉ select_candidates
        (insert_log (singletonDB "A@b.com" 5 exTs 100) "A@b.com" 5
          "wishlist_v1_24h")
        "wishlist_v1_24h" "-06:00" 0 usPerDay 300) ↔
      pyStrip (pyLower "A@b.com") = "A@b.com" :=
  sent_record_email_normalization.2 "A@b.com" 5 exTs 100
    "wishlist_v1_24h" "-06:00" 0 usPerDay 300 (by decide) (by decide)
    (by norm_num)

end WishlistSpec
